import Mathlib

/-!
# Verification of the BigMotionStudio scheduling and publish-orchestration core

Shallow embedding of `src/scheduler.py` (schedule calculator) and
`src/engines/platform_upload_orchestrator.py` (publish orchestrator),
with theorems settling the specification's claims about them.

Conventions:
* Instants are integers: seconds of a naive-UTC timeline (the Python code
  works with naive `datetime.utcnow()` values; posting slots land on whole
  minutes, so integer seconds lose nothing).
* A timezone is modelled as a fixed offset `off` in seconds east of UTC
  (`local = utc + off`).  `_local_to_utc` with an invalid zone falls back to
  treating the time as UTC, which is the `off = 0` instance of this model.
* Python strings are manipulated by character; `pySlice` mirrors `s[:n]`.
-/

set_option maxRecDepth 8192
set_option maxHeartbeats 1000000

namespace BigMotion

/-! ## Schedule calculator — embedding of `src/scheduler.py` -/

def secondsPerDay : Int := 86400

/-- `t` with its time-of-day cleared: the midnight that starts `t`'s day
(the effect of `.replace(hour=h, minute=m, second=0, microsecond=0)` is
`dayStart t + timeOfDay h m`). -/
def dayStart (t : Int) : Int := t - t % secondsPerDay

/-- Seconds after midnight of an `HH:MM` posting-time string. -/
def timeOfDay (h m : Nat) : Int := (h : Int) * 3600 + (m : Int) * 60

/-- `next_local_slot` (scheduler.py lines 122-132): convert the UTC base to
local time, replace its time-of-day by the posting time, convert back. -/
def nextLocalSlot (off baseUtc slot : Int) : Int :=
  dayStart (baseUtc + off) + slot - off

/-- `GENERATION_LEAD_TIME = timedelta(hours=1.5)` (scheduler.py line 53). -/
def GENERATION_LEAD_TIME : Int := 5400

/-- `VideoScheduler.should_generate_now` (scheduler.py lines 195-202). -/
def should_generate_now (scheduledUploadTime now : Int) : Bool :=
  decide (scheduledUploadTime - GENERATION_LEAD_TIME ≤ now ∧
          now ≤ scheduledUploadTime)

/-- The `while next_time <= now` advancing loop shared by the launch branch
(scheduler.py lines 145-151, `daysBetween = 2`) and the grow branch
(lines 164-169, `daysBetween = 1`): recompute the slot from the candidate,
and while it is not in the future advance the candidate by the plan's
day interval.  The `0 < daysBetween` conjunct only rules out the
never-used zero-interval instance (the source calls this with 1 or 2). -/
def scheduleAdvance (off slot now : Int) (daysBetween : Nat) (candidate : Int) : Int :=
  if h : nextLocalSlot off candidate slot ≤ now ∧ 0 < daysBetween then
    scheduleAdvance off slot now daysBetween (candidate + secondsPerDay * daysBetween)
  else
    nextLocalSlot off candidate slot
termination_by (now + 1 - nextLocalSlot off candidate slot).toNat
decreasing_by
  have hd : (1 : Int) ≤ (daysBetween : Int) := by exact_mod_cast h.2
  have h1 := h.1
  simp only [nextLocalSlot, dayStart, secondsPerDay] at *
  omega

/-- Scale branch, no previous video (scheduler.py lines 178-181): first
configured slot of today that is strictly in the future. -/
def firstFutureSlot (off now : Int) : List Int → Option Int
  | [] => none
  | t :: ts =>
    if now < nextLocalSlot off now t then some (nextLocalSlot off now t)
    else firstFutureSlot off now ts

/-- Scale branch, with a previous video (scheduler.py lines 185-188): first
configured slot on the last video's day that is strictly after both the
last video and now. -/
def firstSlotAfter (off last now : Int) : List Int → Option Int
  | [] => none
  | t :: ts =>
    if last < nextLocalSlot off last t ∧ now < nextLocalSlot off last t then
      some (nextLocalSlot off last t)
    else firstSlotAfter off last now ts

/-- `VideoScheduler.calculate_next_scheduled_time` (scheduler.py lines
97-193).  `postingTimes` holds the parsed `HH:MM` entries as seconds after
local midnight; `off` is the series timezone's UTC offset; `plan` is the
user's plan string; `now` stands for `datetime.utcnow()`. -/
def calculate_next_scheduled_time (postingTimes : List Int) (off : Int)
    (plan : String) (lastVideoTime : Option Int) (now : Int) : Int :=
  -- line 117: `posting_times = series.posting_times or ["09:00"]`
  let pts := if postingTimes.isEmpty then [timeOfDay 9 0] else postingTimes
  if plan = "launch" then
    let t0 := pts.headD 0
    match lastVideoTime with
    | none =>
      let next := nextLocalSlot off now t0
      if next ≤ now then nextLocalSlot off (now + secondsPerDay) t0 else next
    | some last =>
      -- `candidate = last + timedelta(days=2)` then the advancing loop
      scheduleAdvance off t0 now 2 (last + secondsPerDay * 2)
  else if plan = "grow" then
    let t0 := pts.headD 0
    match lastVideoTime with
    | none =>
      let next := nextLocalSlot off now t0
      if next ≤ now then nextLocalSlot off (now + secondsPerDay) t0 else next
    | some last =>
      scheduleAdvance off t0 now 1 (last + secondsPerDay * 1)
  else if plan = "scale" then
    -- line 175: use both entries, or [first, "21:00"] when fewer than 2
    let slots := if 2 ≤ pts.length then pts else [pts.headD 0, timeOfDay 21 0]
    match lastVideoTime with
    | none =>
      match firstFutureSlot off now slots with
      | some n => n
      | none => nextLocalSlot off (now + secondsPerDay) (slots.headD 0)
    | some last =>
      match firstSlotAfter off last now slots with
      | some n => n
      | none =>
        -- line 190: fallback slot on the day after the last video —
        -- note: NOT checked against `now`, unlike the other branches
        nextLocalSlot off (last + secondsPerDay) (slots.headD 0)
  else
    now + secondsPerDay

/-! ## Publish orchestrator — embedding of
`src/engines/platform_upload_orchestrator.py`

Python exceptions raised by the external collaborators (engines, token
refresh, `shutil.rmtree`) are modelled as outcome values supplied by an
environment; the embedded control flow catches them exactly where the
source's `try/except` blocks do, so the embedded functions are total —
matching the source, from which no exception escapes `upload_to_platforms`.
-/

/-- Python string slicing `s[:n]` (by characters). -/
def pySlice (s : String) (n : Nat) : String := String.mk (s.data.take n)

/-- Python truthiness-based `a or b` for optional strings (`None` and `""`
are falsy). -/
def pyOr (a : Option String) (b : String) : String :=
  match a with
  | none => b
  | some s => if s = "" then b else s

/-- Python `str.title()` restricted to the single lowercase words it is
applied to here (platform names): capitalize the first character. -/
def pyTitle (s : String) : String :=
  match s.data with
  | [] => s
  | c :: cs => String.mk (c.toUpper :: cs)

/-- Split a character list at every occurrence of `c` (the semantics of
Python `str.split` with a one-character separator). -/
def splitChar (c : Char) : List Char → List (List Char)
  | [] => [[]]
  | ch :: rest =>
    let r := splitChar c rest
    if ch = c then [] :: r
    else
      match r with
      | [] => [[ch]]
      | h :: t => (ch :: h) :: t

/-- Python `s.replace(pat, rep)` for the one-character patterns used in the
source (`tag.replace(" ", "")`). -/
def pyReplaceChar (s : String) (c : Char) (rep : String) : String :=
  String.join (s.data.map fun ch => if ch = c then rep else String.mk [ch])

/-- `os.path.dirname` for forward-slash paths. -/
def dirname (s : String) : String :=
  let parts := splitChar '/' s.data
  if parts.length ≤ 1 then ""
  else String.intercalate "/" (parts.dropLast.map String.mk)

/-- Outcome of one platform engine's `upload_video` call:
normal success, a `{success: false, error: ...}` response, or a raised
exception (message and exception class name). -/
inductive EngineOutcome where
  | ok (videoId : String) (videoUrl : String)
  | err (msg : String)
  | exn (msg : String) (ty : String)
deriving DecidableEq, Repr

/-- Outcome of `_refresh_token`: success, a `False` return, or a raised
exception. -/
inductive RefreshOutcome where
  | ok
  | failed
  | exn (msg : String)
deriving DecidableEq, Repr

/-- The slice of `PlatformConnection` the orchestrator reads. -/
structure Connection where
  accessTokenExpiresAt : Option Int := none
deriving DecidableEq, Repr

/-- The slice of the `Video` record the orchestrator reads and writes. -/
structure VideoRecord where
  status : String
  topic : String := ""
  video_path : Option String := none
  thumbnail_path : Option String := none
  script_path : Option String := none
  title : Option String := none
  description : Option String := none
  tags : List String := []
  scheduled_for : Option Int := none
  youtube_id : Option String := none
  youtube_url : Option String := none
  youtube_published_at : Option Int := none
  instagram_id : Option String := none
  instagram_url : Option String := none
  instagram_published_at : Option Int := none
  tiktok_id : Option String := none
  tiktok_url : Option String := none
  tiktok_published_at : Option Int := none
deriving DecidableEq, Repr

/-- The slice of the `Series` record the orchestrator reads. -/
structure SeriesRecord where
  name : String := ""
  description : Option String := none
deriving DecidableEq, Repr

/-- The external world of one `upload_to_platforms` call: the ORM query for
active connections, `datetime.utcnow()`, `os.path.exists`, the per-platform
engines (passed the metadata the orchestrator hands them), `_refresh_token`
outcomes and whether `shutil.rmtree` raises. -/
structure OrchestratorEnv where
  now : Int
  /-- `db.query(PlatformConnection).filter(..., status == "active").first()`;
  `some` means an active connection exists for that platform name. -/
  connection : String → Option Connection
  fileExists : String → Bool
  refreshOutcome : String → RefreshOutcome
  /-- `youtube_engine.upload_video` as a function of the title and
  description the orchestrator passes (lines 113-122). -/
  youtubeUpload : String → String → EngineOutcome
  /-- `instagram_engine.upload_video` as a function of the caption passed. -/
  instagramUpload : String → EngineOutcome
  /-- `tiktok_engine.upload_video` as a function of title and description. -/
  tiktokUpload : String → String → EngineOutcome
  dirExists : String → Bool
  cleanupRaises : Bool

/-- `PlatformConnection.is_expired` (database/models/platform.py 74-79). -/
def connIsExpired (now : Int) (c : Connection) : Bool :=
  match c.accessTokenExpiresAt with
  | none => false
  | some e => decide (e < now)

/-- `PlatformConnection.needs_refresh` (database/models/platform.py 81-88):
within 5 minutes of expiry. -/
def connNeedsRefresh (now : Int) (c : Connection) : Bool :=
  match c.accessTokenExpiresAt with
  | none => false
  | some e => decide (e - 300 < now)

/-- One per-platform entry of the `results` dict. -/
structure UploadRes where
  success : Bool
  error : Option String := none
  errorType : Option String := none
  videoId : Option String := none
  videoUrl : Option String := none
deriving DecidableEq, Repr

/-- The metadata computed once before the loop (lines 72-78). -/
structure UploadMeta where
  title : String
  description : String
  tags : List String
  caption : String
deriving DecidableEq, Repr

/-- `_create_caption` (lines 409-419). -/
def create_caption (title : String) (description : String) (tags : List String) :
    String :=
  let caption := pySlice title 100
  let caption :=
    if tags.isEmpty then caption
    else
      let hashtags :=
        String.intercalate " "
          ((tags.take 10).map (fun tag => "#" ++ pyReplaceChar tag ' ' ""))
      caption ++ "\n\n" ++ hashtags
  pySlice caption 2200

/-- `title[:100]` in the YouTube engine's request body
(youtube_upload_engine.py line 90) — the place where the 100-character
YouTube title limit is actually enforced. -/
def youtubeRequestTitle (title : String) : String := pySlice title 100

/-- How the per-platform loop turns an engine outcome into a `results`
entry: the engine's own dict on success/failure, or the
`{'success': False, 'error': str(e), 'error_type': type(e).__name__}` entry
built by the `except` clause (lines 175-181). -/
def engineRes : EngineOutcome → UploadRes
  | .ok i u => { success := true, videoId := some i, videoUrl := some u }
  | .err m => { success := false, error := some m }
  | .exn m ty => { success := false, error := some m, errorType := some ty }

/-- The engine dispatch of one loop iteration (lines 112-164), reached once
an active connection exists and after the best-effort refresh. -/
def dispatchUpload (env : OrchestratorEnv) (meta : UploadMeta) (p : String) :
    UploadRes :=
  if p = "youtube" then engineRes (env.youtubeUpload meta.title meta.description)
  else if p = "instagram" then engineRes (env.instagramUpload meta.caption)
  else if p = "tiktok" then engineRes (env.tiktokUpload meta.title meta.description)
  else { success := false, error := some ("Unknown platform: " ++ p) }

/-- The `results[platform]` entry produced by one iteration of the
per-platform loop (lines 84-181).  The token refresh (lines 102-110) is
invoked when the connection is stale but its outcome — including a raised
exception, caught at lines 109-110 — is only logged and never routes
control away from the upload dispatch. -/
def platformResult (env : OrchestratorEnv) (meta : UploadMeta) (p : String) :
    UploadRes :=
  match env.connection p with
  | none =>
    { success := false
      error := some (pyTitle p ++ " not connected")
      errorType := some "NoConnection" }
  | some conn =>
    let _refreshAttempt : Option RefreshOutcome :=
      if connNeedsRefresh env.now conn || connIsExpired env.now conn then
        some (env.refreshOutcome p)
      else none
    dispatchUpload env meta p

/-- The video-record update of one loop iteration: on success the
platform-specific id/url/published-at fields are written (lines 124-158);
on failure the record is untouched. -/
def applyResult (now : Int) (rec : VideoRecord) (p : String) (r : UploadRes) :
    VideoRecord :=
  if r.success then
    if p = "youtube" then
      { rec with youtube_id := r.videoId, youtube_url := r.videoUrl,
                 youtube_published_at := some now }
    else if p = "instagram" then
      { rec with instagram_id := r.videoId, instagram_url := r.videoUrl,
                 instagram_published_at := some now }
    else if p = "tiktok" then
      { rec with tiktok_id := r.videoId, tiktok_url := r.videoUrl,
                 tiktok_published_at := some now }
    else rec
  else rec

/-- Python dict assignment `results[platform] = result`: replace an existing
key in place, otherwise append (dict preserves insertion order). -/
def dictInsert (m : List (String × UploadRes)) (k : String) (v : UploadRes) :
    List (String × UploadRes) :=
  if m.any (fun e => e.1 = k) then
    m.map (fun e => if e.1 = k then (k, v) else e)
  else m ++ [(k, v)]

/-- The per-platform loop (lines 84-181), threading the `results` dict, the
`overall_success` flag and the video record. -/
def uploadLoop (env : OrchestratorEnv) (meta : UploadMeta) :
    List String → List (String × UploadRes) → Bool → VideoRecord →
      List (String × UploadRes) × Bool × VideoRecord
  | [], res, flag, rec => (res, flag, rec)
  | p :: rest, res, flag, rec =>
    let r := platformResult env meta p
    uploadLoop env meta rest (dictInsert res p r) (flag || r.success)
      (applyResult env.now rec p r)

/-- `_cleanup_temp_files` (lines 272-300): delete the project directory;
a raised exception is caught and logged (line 298), leaving the record as
is; on success the local path fields are nulled.  Platform URL fields and
the status are never touched. -/
def cleanup_temp_files (env : OrchestratorEnv) (rec : VideoRecord) :
    VideoRecord :=
  match rec.video_path with
  | none => rec
  | some vp =>
    let projectDir := dirname vp
    if projectDir ≠ "" ∧ env.dirExists projectDir then
      if env.cleanupRaises then rec
      else { rec with video_path := none, thumbnail_path := none,
                      script_path := none }
    else rec

/-- The precondition actually checked on entry (lines 64-70): the video
path is set, non-empty and the file exists.  Nothing else — in particular
`video.status` — is checked. -/
def videoFileOk (env : OrchestratorEnv) (video : VideoRecord) : Bool :=
  match video.video_path with
  | none => false
  | some vp => decide (vp ≠ "") && env.fileExists vp

/-- Metadata preparation before the loop (lines 72-78). -/
def uploadMetaOf (video : VideoRecord) (series : SeriesRecord) : UploadMeta :=
  let title := pyOr video.title (series.name ++ " - " ++ video.topic)
  let description := pyOr video.description (pyOr series.description "")
  let tags := video.tags
  { title := title, description := description, tags := tags,
    caption := create_caption title description tags }

/-- The aggregate returned by `upload_to_platforms`. -/
structure PublishOutput where
  success : Bool
  error : Option String := none
  platformsAttempted : List String := []
  platformsSucceeded : List String := []
  platformsFailed : List String := []
  results : List (String × UploadRes) := []
deriving DecidableEq, Repr

/-- `PlatformUploadOrchestrator.upload_to_platforms` (lines 31-208).
Returns the result dict together with the final state of the video record.
The early `Video file not found` return (lines 64-70) checks only the
video path — `video.status` is never consulted. -/
def upload_to_platforms (env : OrchestratorEnv) (video : VideoRecord)
    (series : SeriesRecord) (platforms : List String) :
    PublishOutput × VideoRecord :=
  if videoFileOk env video = false then
    ({ success := false, error := some "Video file not found" }, video)
  else
    let meta := uploadMetaOf video series
    let out := uploadLoop env meta platforms [] false video
    let results := out.1
    let flag := out.2.1
    let vrec := out.2.2
    let vrec2 :=
      if flag then cleanup_temp_files env { vrec with status := "published" }
      else vrec
    ({ success := flag
       platformsAttempted := results.map Prod.fst
       platformsSucceeded := (results.filter (fun e => e.2.success)).map Prod.fst
       platformsFailed := (results.filter (fun e => !e.2.success)).map Prod.fst
       results := results }, vrec2)

/-! ## Concrete fixtures for witnesses and counterexamples -/

def defaultSeries : SeriesRecord :=
  { name := "My Series", description := some "A series about things" }

def readyVideo : VideoRecord :=
  { status := "ready", topic := "cats",
    video_path := some "proj/video.mp4",
    thumbnail_path := some "proj/thumb.jpg",
    script_path := some "proj/script.txt",
    title := some "A video title",
    description := some "A description",
    tags := ["fun", "cat videos"] }

/-- Scenario with all three platforms connected: YouTube raises, Instagram
returns a failure dict, TikTok succeeds. -/
def envBase : OrchestratorEnv :=
  { now := 1000
    connection := fun _ => some { accessTokenExpiresAt := none }
    fileExists := fun _ => true
    refreshOutcome := fun _ => RefreshOutcome.ok
    youtubeUpload := fun _ _ => EngineOutcome.exn "network down" "ConnectionError"
    instagramUpload := fun _ => EngineOutcome.err "Instagram upload failed"
    tiktokUpload := fun _ _ => EngineOutcome.ok "tt-123" "https://tiktok.example/v/123"
    dirExists := fun _ => true
    cleanupRaises := false }

def envAllFail : OrchestratorEnv :=
  { envBase with connection := fun _ => none }

def envCleanupRaise : OrchestratorEnv :=
  { envBase with cleanupRaises := true }

/-- All connections hard-expired relative to `now = 1000`, and every token
refresh raises. -/
def envStaleToken : OrchestratorEnv :=
  { envBase with
    connection := fun _ => some { accessTokenExpiresAt := some 0 }
    refreshOutcome := fun _ => RefreshOutcome.exn "refresh exploded" }

def longTitle : String := String.mk (List.replicate 150 'a')

/-- A YouTube engine that reports whether the title it receives is within
the documented 100-character limit. -/
def envTitleProbe : OrchestratorEnv :=
  { envBase with
    youtubeUpload := fun t _ =>
      if t.length ≤ 100 then EngineOutcome.ok "yt-1" "https://youtube.example/v/1"
      else EngineOutcome.err "title over 100" }

/-! ## Helper lemmas about the orchestrator loop -/

theorem pySlice_length_le (s : String) (n : Nat) : (pySlice s n).length ≤ n := by
  unfold pySlice
  show (s.data.take n).length ≤ n
  simp [List.length_take]

theorem applyResult_status (now : Int) (rec : VideoRecord) (p : String)
    (r : UploadRes) : (applyResult now rec p r).status = rec.status := by
  unfold applyResult
  repeat' split
  all_goals rfl

theorem cleanup_temp_files_frame (env : OrchestratorEnv) (rec : VideoRecord) :
    (cleanup_temp_files env rec).status = rec.status ∧
    (cleanup_temp_files env rec).youtube_id = rec.youtube_id ∧
    (cleanup_temp_files env rec).youtube_url = rec.youtube_url ∧
    (cleanup_temp_files env rec).youtube_published_at = rec.youtube_published_at ∧
    (cleanup_temp_files env rec).instagram_id = rec.instagram_id ∧
    (cleanup_temp_files env rec).instagram_url = rec.instagram_url ∧
    (cleanup_temp_files env rec).instagram_published_at = rec.instagram_published_at ∧
    (cleanup_temp_files env rec).tiktok_id = rec.tiktok_id ∧
    (cleanup_temp_files env rec).tiktok_url = rec.tiktok_url ∧
    (cleanup_temp_files env rec).tiktok_published_at = rec.tiktok_published_at := by
  cases hv : rec.video_path with
  | none => simp [cleanup_temp_files, hv]
  | some vp =>
    simp only [cleanup_temp_files, hv]
    split_ifs <;> simp

theorem cleanup_temp_files_success (env : OrchestratorEnv) (rec : VideoRecord)
    (vp : String) (hvp : rec.video_path = some vp) (hd : dirname vp ≠ "")
    (hex : env.dirExists (dirname vp) = true) (hraise : env.cleanupRaises = false) :
    (cleanup_temp_files env rec).video_path = none ∧
    (cleanup_temp_files env rec).thumbnail_path = none ∧
    (cleanup_temp_files env rec).script_path = none := by
  unfold cleanup_temp_files
  rw [hvp]
  simp [hd, hex, hraise]

theorem uploadLoop_status (env : OrchestratorEnv) (meta : UploadMeta)
    (ps : List String) : ∀ res flag rec,
    (uploadLoop env meta ps res flag rec).2.2.status = rec.status := by
  induction ps with
  | nil => intro res flag rec; rfl
  | cons p rest ih =>
    intro res flag rec
    simp only [uploadLoop]
    rw [ih]
    exact applyResult_status ..

theorem uploadLoop_flag (env : OrchestratorEnv) (meta : UploadMeta)
    (ps : List String) : ∀ res flag rec,
    (uploadLoop env meta ps res flag rec).2.1 =
      (flag || ps.any fun p => (platformResult env meta p).success) := by
  induction ps with
  | nil => intro res flag rec; simp [uploadLoop]
  | cons p rest ih =>
    intro res flag rec
    simp only [uploadLoop, List.any_cons]
    rw [ih]
    simp [Bool.or_assoc]

theorem uploadLoop_results (env : OrchestratorEnv) (meta : UploadMeta)
    (ps : List String) : ∀ res flag rec,
    (uploadLoop env meta ps res flag rec).1 =
      ps.foldl (fun acc q => dictInsert acc q (platformResult env meta q)) res := by
  induction ps with
  | nil => intro res flag rec; rfl
  | cons p rest ih =>
    intro res flag rec
    simp only [uploadLoop, List.foldl_cons]
    rw [ih]

theorem mem_dictInsert (m : List (String × UploadRes)) (k : String)
    (v : UploadRes) (e : String × UploadRes) (h : e ∈ dictInsert m k v) :
    e ∈ m ∨ e = (k, v) := by
  unfold dictInsert at h
  split at h
  · obtain ⟨e', he', heq⟩ := List.mem_map.mp h
    by_cases hk : e'.1 = k
    · right; rw [if_pos hk] at heq; exact heq.symm
    · left; rw [if_neg hk] at heq; exact heq ▸ he'
  · rcases List.mem_append.mp h with h1 | h2
    · left; exact h1
    · right; simpa using h2

theorem self_mem_dictInsert (m : List (String × UploadRes)) (k : String)
    (v : UploadRes) : (k, v) ∈ dictInsert m k v := by
  unfold dictInsert
  split
  · next hany =>
    obtain ⟨e, he, hk⟩ := List.any_eq_true.mp hany
    apply List.mem_map.mpr
    exact ⟨e, he, by simp [of_decide_eq_true hk]⟩
  · exact List.mem_append_right _ (by simp)

theorem pr_mem_dictInsert (env : OrchestratorEnv) (meta : UploadMeta)
    (m : List (String × UploadRes)) (k p : String)
    (h : (p, platformResult env meta p) ∈ m) :
    (p, platformResult env meta p) ∈ dictInsert m k (platformResult env meta k) := by
  unfold dictInsert
  split
  · apply List.mem_map.mpr
    refine ⟨(p, platformResult env meta p), h, ?_⟩
    by_cases hk : p = k
    · subst hk; simp
    · simp [hk]
  · exact List.mem_append_left _ h

theorem foldl_pr_mem (env : OrchestratorEnv) (meta : UploadMeta)
    (ps : List String) (p : String) : ∀ res,
    ((p, platformResult env meta p) ∈ res ∨ p ∈ ps) →
    (p, platformResult env meta p) ∈
      ps.foldl (fun acc q => dictInsert acc q (platformResult env meta q)) res := by
  induction ps with
  | nil =>
    intro res h
    rcases h with h | h
    · exact h
    · simp at h
  | cons q rest ih =>
    intro res h
    simp only [List.foldl_cons]
    apply ih
    rcases h with hin | hmem
    · left; exact pr_mem_dictInsert env meta res q p hin
    · rcases List.mem_cons.mp hmem with rfl | hrest
      · left; exact self_mem_dictInsert ..
      · right; exact hrest

theorem foldl_entries (env : OrchestratorEnv) (meta : UploadMeta)
    (ps : List String) : ∀ res,
    (∀ e ∈ res, e.2 = platformResult env meta e.1) →
    ∀ e ∈ ps.foldl (fun acc q => dictInsert acc q (platformResult env meta q)) res,
      e.2 = platformResult env meta e.1 := by
  induction ps with
  | nil => intro res h; exact h
  | cons q rest ih =>
    intro res h
    simp only [List.foldl_cons]
    apply ih
    intro e he
    rcases mem_dictInsert res q (platformResult env meta q) e he with h1 | h2
    · exact h e h1
    · rw [h2]

theorem foldl_mem_cases (env : OrchestratorEnv) (meta : UploadMeta)
    (ps : List String) : ∀ res (e : String × UploadRes),
    e ∈ ps.foldl (fun acc q => dictInsert acc q (platformResult env meta q)) res →
    e ∈ res ∨ e.1 ∈ ps := by
  induction ps with
  | nil => intro res e h; left; exact h
  | cons q rest ih =>
    intro res e h
    simp only [List.foldl_cons] at h
    rcases ih _ e h with h1 | h2
    · rcases mem_dictInsert res q (platformResult env meta q) e h1 with h3 | h4
      · left; exact h3
      · right; rw [h4]; simp
    · right; exact List.mem_cons_of_mem _ h2

/-- OR semantics across platforms (lines 124-206): the overall `success`
flag of the returned dict is true exactly when `platforms_succeeded` is
non-empty — including the early-failure return, where both are falsy. -/
theorem orch_success_iff (env : OrchestratorEnv) (video : VideoRecord)
    (series : SeriesRecord) (platforms : List String) :
    ((upload_to_platforms env video series platforms).1.success = true ↔
      (upload_to_platforms env video series platforms).1.platformsSucceeded ≠ []) := by
  unfold upload_to_platforms
  split
  · simp
  · simp only []
    rw [uploadLoop_flag, uploadLoop_results]
    constructor
    · intro hflag
      simp only [Bool.false_or] at hflag
      obtain ⟨p, hp, hsucc⟩ := List.any_eq_true.mp hflag
      have hmem := foldl_pr_mem env (uploadMetaOf video series) platforms p []
        (Or.inr hp)
      apply List.ne_nil_of_mem
      exact List.mem_map.mpr ⟨(p, platformResult env (uploadMetaOf video series) p),
        List.mem_filter.mpr ⟨hmem, hsucc⟩, rfl⟩
    · intro hne
      obtain ⟨x, hx⟩ := List.exists_mem_of_ne_nil _ hne
      obtain ⟨e, hef, hfst⟩ := List.mem_map.mp hx
      have hmem := List.mem_filter.mp hef
      have hkey := foldl_mem_cases env (uploadMetaOf video series) platforms [] e
        hmem.1
      simp only [List.not_mem_nil, false_or] at hkey
      have hval := foldl_entries env (uploadMetaOf video series) platforms []
        (by intro e he; simp at he) e hmem.1
      simp only [Bool.false_or]
      apply List.any_eq_true.mpr
      exact ⟨e.1, hkey, by rw [← hval]; exact hmem.2⟩

/-- Changing the refresh outcomes changes nothing: the per-platform loop —
and hence the whole call — is invariant under the token-refresh results
(the refresh at lines 102-110 is logged only, never gates the upload). -/
theorem uploadLoop_refresh_irrelevant (env : OrchestratorEnv)
    (r : String → RefreshOutcome) (meta : UploadMeta) (ps : List String) :
    ∀ res flag rec,
    uploadLoop { env with refreshOutcome := r } meta ps res flag rec =
      uploadLoop env meta ps res flag rec := by
  induction ps with
  | nil => intro res flag rec; rfl
  | cons p rest ih =>
    intro res flag rec
    simp only [uploadLoop]
    rw [show platformResult { env with refreshOutcome := r } meta p =
          platformResult env meta p from rfl]
    exact ih ..

/-! ## Schedule calculator theorems -/

/-- C1 — the forward-progress guarantee fails on the code: for the scale
tier with the last slot far in the past, `calculate_next_scheduled_time`
returns the slot on the day after the last slot, which is ≤ now.  Input:
UTC series with posting times 09:00 and 21:00, last slot = day 0 at 09:00,
now = day 30 at 00:00.  The code returns day 1 at 09:00 (118800 s), 29 days
before `now` — the scale fallback (scheduler.py line 190) omits the
`while next_time <= now` advance that the launch and grow branches have, so
such a series never re-enters the generation window and stalls. -/
theorem calculate_next_scheduled_time_scale_stall :
    calculate_next_scheduled_time [timeOfDay 9 0, timeOfDay 21 0] 0 "scale"
        (some (timeOfDay 9 0)) (30 * secondsPerDay) = 118800 ∧
    (118800 : Int) < 30 * secondsPerDay := by
  constructor
  · decide
  · decide

/-- C5 counterexample — an empty posting-times list is NOT rejected: the
calculator silently substitutes the default "09:00" (scheduler.py line 117
`posting_times = series.posting_times or ["09:00"]`) and returns the
ordinary 09:00 slot; nothing named `InvalidConfiguration` exists in the
code and no error path is taken. -/
theorem empty_posting_times_not_rejected :
    calculate_next_scheduled_time [] 0 "grow" none 0 = timeOfDay 9 0 ∧
    calculate_next_scheduled_time [] 0 "grow" none 0 =
      calculate_next_scheduled_time [timeOfDay 9 0] 0 "grow" none 0 := by
  constructor
  · decide
  · decide

/-- C5 (amended) — an empty posting-times list is silently tolerated: for
every timezone offset, plan, last-slot value and current time, the
calculator behaves exactly as if the list were `["09:00"]`. -/
theorem empty_posting_times_default (off : Int) (plan : String)
    (lastVideoTime : Option Int) (now : Int) :
    calculate_next_scheduled_time [] off plan lastVideoTime now =
      calculate_next_scheduled_time [timeOfDay 9 0] off plan lastVideoTime now := by
  unfold calculate_next_scheduled_time
  simp

/-- C7 — `should_generate_now` is true exactly on the closed interval from
`slot - GENERATION_LEAD_TIME` to `slot`: true at both endpoints, false one
second outside either endpoint. -/
theorem should_generate_now_window (slot now : Int) :
    (should_generate_now slot now = true ↔
      slot - GENERATION_LEAD_TIME ≤ now ∧ now ≤ slot) ∧
    should_generate_now slot (slot - GENERATION_LEAD_TIME) = true ∧
    should_generate_now slot slot = true ∧
    should_generate_now slot (slot + 1) = false ∧
    should_generate_now slot (slot - GENERATION_LEAD_TIME - 1) = false := by
  unfold should_generate_now GENERATION_LEAD_TIME
  refine ⟨?_, ?_, ?_, ?_, ?_⟩
  all_goals simp only [decide_eq_true_eq, decide_eq_false_iff_not, not_and, not_le]
  all_goals omega

/-! ## Publish orchestrator theorems -/

/-- C2 — partial-failure independence: with YouTube raising an exception,
Instagram returning `{success: false}` and TikTok succeeding, the call
returns overall success with exactly TikTok in the succeeded list and the
other two in the failed list, populates only TikTok's id/url/published-at
fields, and (exceptions being modelled as engine outcomes consumed by the
embedded `except` handling) returns normally.  In general, overall
`success = true` iff at least one platform succeeded. -/
theorem partial_failure_independence :
    ((upload_to_platforms envBase readyVideo defaultSeries
        ["youtube", "instagram", "tiktok"]).1.success = true ∧
     (upload_to_platforms envBase readyVideo defaultSeries
        ["youtube", "instagram", "tiktok"]).1.platformsSucceeded = ["tiktok"] ∧
     (upload_to_platforms envBase readyVideo defaultSeries
        ["youtube", "instagram", "tiktok"]).1.platformsFailed =
        ["youtube", "instagram"] ∧
     (upload_to_platforms envBase readyVideo defaultSeries
        ["youtube", "instagram", "tiktok"]).2.tiktok_id = some "tt-123" ∧
     (upload_to_platforms envBase readyVideo defaultSeries
        ["youtube", "instagram", "tiktok"]).2.tiktok_url =
        some "https://tiktok.example/v/123" ∧
     (upload_to_platforms envBase readyVideo defaultSeries
        ["youtube", "instagram", "tiktok"]).2.tiktok_published_at = some 1000 ∧
     (upload_to_platforms envBase readyVideo defaultSeries
        ["youtube", "instagram", "tiktok"]).2.youtube_id = none ∧
     (upload_to_platforms envBase readyVideo defaultSeries
        ["youtube", "instagram", "tiktok"]).2.youtube_url = none ∧
     (upload_to_platforms envBase readyVideo defaultSeries
        ["youtube", "instagram", "tiktok"]).2.youtube_published_at = none ∧
     (upload_to_platforms envBase readyVideo defaultSeries
        ["youtube", "instagram", "tiktok"]).2.instagram_id = none ∧
     (upload_to_platforms envBase readyVideo defaultSeries
        ["youtube", "instagram", "tiktok"]).2.instagram_url = none ∧
     (upload_to_platforms envBase readyVideo defaultSeries
        ["youtube", "instagram", "tiktok"]).2.instagram_published_at = none) ∧
    ∀ (env : OrchestratorEnv) (video : VideoRecord) (series : SeriesRecord)
      (platforms : List String),
      ((upload_to_platforms env video series platforms).1.success = true ↔
        (upload_to_platforms env video series platforms).1.platformsSucceeded ≠ []) :=
  ⟨by decide, orch_success_iff⟩

/-- C3 — total failure: if no platform succeeded (all failed, or none
connected), the overall result is `success = false` and the video's
status is left exactly as it was — the orchestrator never forces it to
"failed". -/
theorem total_failure_leaves_status (env : OrchestratorEnv)
    (video : VideoRecord) (series : SeriesRecord) (platforms : List String)
    (h : (upload_to_platforms env video series platforms).1.platformsSucceeded = []) :
    (upload_to_platforms env video series platforms).1.success = false ∧
    (upload_to_platforms env video series platforms).2.status = video.status := by
  have hiff := orch_success_iff env video series platforms
  have hsucc : (upload_to_platforms env video series platforms).1.success = false := by
    rcases Bool.eq_false_or_eq_true
        (upload_to_platforms env video series platforms).1.success with hb | hb
    · exact absurd h (hiff.mp hb)
    · exact hb
  refine ⟨hsucc, ?_⟩
  by_cases hf : videoFileOk env video = false
  · unfold upload_to_platforms
    rw [if_pos hf]
  · unfold upload_to_platforms at hsucc ⊢
    rw [if_neg hf] at hsucc ⊢
    dsimp only at hsucc ⊢
    rw [hsucc]
    simp only [Bool.false_eq_true, if_false]
    exact uploadLoop_status ..

/-- C3 witness: no platform connected at all. -/
theorem total_failure_leaves_status_witness :
    (upload_to_platforms envAllFail readyVideo defaultSeries
        ["youtube", "instagram", "tiktok"]).1.platformsSucceeded = [] ∧
    ((upload_to_platforms envAllFail readyVideo defaultSeries
        ["youtube", "instagram", "tiktok"]).1.success = false ∧
     (upload_to_platforms envAllFail readyVideo defaultSeries
        ["youtube", "instagram", "tiktok"]).2.status = readyVideo.status) :=
  ⟨by decide,
   total_failure_leaves_status envAllFail readyVideo defaultSeries
     ["youtube", "instagram", "tiktok"] (by decide)⟩

/-- C4 counterexample — `video.status == "ready"` is NOT a precondition:
a video in status "generating" whose file exists is uploaded anyway; the
call proceeds to the platform, succeeds, and returns a non-empty results
map — contradicting the claim that a failed status precondition yields an
immediate failure with an empty per-platform results map. -/
theorem status_precondition_not_checked :
    (upload_to_platforms envBase { readyVideo with status := "generating" }
        defaultSeries ["tiktok"]).1.success = true ∧
    (upload_to_platforms envBase { readyVideo with status := "generating" }
        defaultSeries ["tiktok"]).1.platformsAttempted = ["tiktok"] ∧
    (upload_to_platforms envBase { readyVideo with status := "generating" }
        defaultSeries ["tiktok"]).1.results ≠ [] := by
  decide

/-- C4 (amended) — the only checked precondition is the video file: when
`video.video_path` is unset, empty, or the file does not exist, the call
returns immediately with the `Video file not found` failure, an empty
results map and every per-platform list empty, and the video record is
untouched — no upload or token refresh is attempted.  `video.status` is
not part of the check. -/
theorem missing_file_fails_fast (env : OrchestratorEnv) (video : VideoRecord)
    (series : SeriesRecord) (platforms : List String)
    (h : videoFileOk env video = false) :
    upload_to_platforms env video series platforms =
      ({ success := false, error := some "Video file not found" }, video) := by
  unfold upload_to_platforms
  rw [if_pos h]

/-- C4 witness: a record with no video path. -/
theorem missing_file_fails_fast_witness :
    videoFileOk envBase { readyVideo with video_path := none } = false ∧
    upload_to_platforms envBase { readyVideo with video_path := none }
        defaultSeries ["youtube", "instagram", "tiktok"] =
      ({ success := false, error := some "Video file not found" },
       { readyVideo with video_path := none }) :=
  ⟨by decide,
   missing_file_fails_fast envBase { readyVideo with video_path := none }
     defaultSeries ["youtube", "instagram", "tiktok"] (by decide)⟩

/-- C6 counterexample — the orchestrator does NOT truncate YouTube titles
to 100 characters before dispatch: with a 150-character title, the YouTube
engine receives a title longer than 100 characters (observed by an engine
that rejects over-long titles), so platform modules cannot assume
pre-validated title lengths. -/
theorem youtube_title_not_pretruncated :
    longTitle.length = 150 ∧
    (upload_to_platforms envTitleProbe { readyVideo with title := some longTitle }
        defaultSeries ["youtube"]).1.results =
      [("youtube", { success := false, error := some "title over 100" })] := by
  decide

/-- C6 (amended) — the 2200-character caption truncation does happen in the
orchestrator (`_create_caption`), but YouTube titles are passed through to
the engine untruncated; the 100-character YouTube title limit is enforced
inside the YouTube engine's request body (`title[:100]`,
youtube_upload_engine.py line 90), not in the orchestrator. -/
theorem caption_truncated_title_passed_through (t d : String)
    (tags : List String) (env : OrchestratorEnv) (meta : UploadMeta) :
    (create_caption t d tags).length ≤ 2200 ∧
    youtubeRequestTitle t = pySlice t 100 ∧
    (youtubeRequestTitle t).length ≤ 100 ∧
    dispatchUpload env meta "youtube" =
      engineRes (env.youtubeUpload meta.title meta.description) := by
  refine ⟨?_, rfl, ?_, ?_⟩
  · unfold create_caption
    exact pySlice_length_le ..
  · unfold youtubeRequestTitle
    exact pySlice_length_le ..
  · unfold dispatchUpload
    simp

/-- C8 — cleanup is non-destructive: whenever at least one platform
succeeded the video ends the call with status "published", for every
environment — including one where deleting the temp directory raises
(caught at lines 298-300).  `_cleanup_temp_files` never touches the status
or the per-platform URL fields, and on successful deletion it nulls the
three local path fields. -/
theorem cleanup_nondestructive (env : OrchestratorEnv) (video : VideoRecord)
    (series : SeriesRecord) (platforms : List String)
    (h : (upload_to_platforms env video series platforms).1.platformsSucceeded ≠ []) :
    (upload_to_platforms env video series platforms).2.status = "published" ∧
    (∀ rec : VideoRecord,
      (cleanup_temp_files env rec).status = rec.status ∧
      (cleanup_temp_files env rec).youtube_url = rec.youtube_url ∧
      (cleanup_temp_files env rec).instagram_url = rec.instagram_url ∧
      (cleanup_temp_files env rec).tiktok_url = rec.tiktok_url) ∧
    (∀ (rec : VideoRecord) (vp : String), rec.video_path = some vp →
      dirname vp ≠ "" → env.dirExists (dirname vp) = true →
      env.cleanupRaises = false →
      (cleanup_temp_files env rec).video_path = none ∧
      (cleanup_temp_files env rec).thumbnail_path = none ∧
      (cleanup_temp_files env rec).script_path = none) := by
  refine ⟨?_, ?_, ?_⟩
  · have hflag : (upload_to_platforms env video series platforms).1.success = true :=
      (orch_success_iff env video series platforms).mpr h
    by_cases hf : videoFileOk env video = false
    · exfalso
      apply h
      unfold upload_to_platforms
      rw [if_pos hf]
    · unfold upload_to_platforms at hflag ⊢
      rw [if_neg hf] at hflag ⊢
      dsimp only at hflag ⊢
      rw [hflag]
      simp only [if_true]
      exact (cleanup_temp_files_frame env _).1
  · intro rec
    obtain ⟨h1, _, h3, _, _, h6, _, _, h9, _⟩ := cleanup_temp_files_frame env rec
    exact ⟨h1, h3, h6, h9⟩
  · intro rec vp hvp hd hex hr
    exact cleanup_temp_files_success env rec vp hvp hd hex hr

/-- C8 witness: cleanup raises, TikTok succeeded, status is still
"published". -/
theorem cleanup_nondestructive_witness :
    (upload_to_platforms envCleanupRaise readyVideo defaultSeries
        ["tiktok"]).1.platformsSucceeded ≠ [] ∧
    (upload_to_platforms envCleanupRaise readyVideo defaultSeries
        ["tiktok"]).2.status = "published" :=
  ⟨by decide,
   (cleanup_nondestructive envCleanupRaise readyVideo defaultSeries ["tiktok"]
     (by decide)).1⟩

/-- C9 — token refresh is best-effort, never a gate: the whole call is
invariant under the refresh outcomes (success, `False` return, or raised
exception — all only logged), and for any platform with an active
connection the recorded result is exactly the result of dispatching the
upload — the refresh outcome cannot divert control away from the upload
attempt. -/
theorem refresh_best_effort (env : OrchestratorEnv)
    (r : String → RefreshOutcome) (video : VideoRecord)
    (series : SeriesRecord) (platforms : List String) (meta : UploadMeta)
    (p : String) (conn : Connection)
    (hconn : env.connection p = some conn)
    (hstale : (connNeedsRefresh env.now conn || connIsExpired env.now conn) = true) :
    upload_to_platforms { env with refreshOutcome := r } video series platforms =
      upload_to_platforms env video series platforms ∧
    platformResult env meta p = dispatchUpload env meta p := by
  constructor
  · by_cases hf : videoFileOk env video = false
    · have hf' : videoFileOk { env with refreshOutcome := r } video = false := hf
      unfold upload_to_platforms
      rw [if_pos hf, if_pos hf']
    · have hf' : ¬ videoFileOk { env with refreshOutcome := r } video = false := hf
      unfold upload_to_platforms
      rw [if_neg hf, if_neg hf']
      dsimp only
      rw [uploadLoop_refresh_irrelevant]
      rfl
  · unfold platformResult
    rw [hconn]

/-- C9 witness: hard-expired token, refresh forced to report failure. -/
theorem refresh_best_effort_witness :
    envStaleToken.connection "tiktok" = some { accessTokenExpiresAt := some 0 } ∧
    (connNeedsRefresh envStaleToken.now { accessTokenExpiresAt := some 0 } ||
      connIsExpired envStaleToken.now { accessTokenExpiresAt := some 0 }) = true ∧
    upload_to_platforms
        { envStaleToken with refreshOutcome := fun _ => RefreshOutcome.failed }
        readyVideo defaultSeries ["tiktok"] =
      upload_to_platforms envStaleToken readyVideo defaultSeries ["tiktok"] :=
  ⟨rfl, by decide,
   (refresh_best_effort envStaleToken (fun _ => RefreshOutcome.failed)
     readyVideo defaultSeries ["tiktok"] (uploadMetaOf readyVideo defaultSeries)
     "tiktok" { accessTokenExpiresAt := some 0 } rfl (by decide)).1⟩

/-- C10 — an unknown platform name with an active connection is harmless:
its per-platform result is the `Unknown platform: <name>` failure, the name
lands in `platforms_failed` and never in `platforms_succeeded`, the call
returns normally (the embedded call is total), and overall success can
only come from some other platform. -/
theorem unknown_platform_safe (env : OrchestratorEnv) (video : VideoRecord)
    (series : SeriesRecord) (platforms : List String) (p : String)
    (conn : Connection) (hconn : env.connection p = some conn)
    (hy : p ≠ "youtube") (hi : p ≠ "instagram") (ht : p ≠ "tiktok")
    (hmem : p ∈ platforms) (hfile : videoFileOk env video = true) :
    platformResult env (uploadMetaOf video series) p =
      { success := false, error := some ("Unknown platform: " ++ p) } ∧
    p ∈ (upload_to_platforms env video series platforms).1.platformsFailed ∧
    p ∉ (upload_to_platforms env video series platforms).1.platformsSucceeded ∧
    ((upload_to_platforms env video series platforms).1.success = true →
      ∃ q ∈ (upload_to_platforms env video series platforms).1.platformsSucceeded,
        q ≠ p) := by
  have hpr : platformResult env (uploadMetaOf video series) p =
      { success := false, error := some ("Unknown platform: " ++ p) } := by
    unfold platformResult dispatchUpload
    rw [hconn]
    simp [hy, hi, ht]
  have hfneg : ¬ videoFileOk env video = false := by simp [hfile]
  have hmemres : (p, platformResult env (uploadMetaOf video series) p) ∈
      (uploadLoop env (uploadMetaOf video series) platforms [] false video).1 := by
    rw [uploadLoop_results]
    exact foldl_pr_mem env (uploadMetaOf video series) platforms p [] (Or.inr hmem)
  have hnotsucc : p ∉
      (upload_to_platforms env video series platforms).1.platformsSucceeded := by
    unfold upload_to_platforms
    rw [if_neg hfneg]
    dsimp only
    intro hp
    obtain ⟨e, hef, hfst⟩ := List.mem_map.mp hp
    have hf2 := List.mem_filter.mp hef
    have hval := foldl_entries env (uploadMetaOf video series) platforms []
      (by intro e he; simp at he) e
      (by rw [uploadLoop_results] at hf2; exact hf2.1)
    rw [hval, hfst, hpr] at hf2
    simp at hf2
  refine ⟨hpr, ?_, hnotsucc, ?_⟩
  · unfold upload_to_platforms
    rw [if_neg hfneg]
    dsimp only
    apply List.mem_map.mpr
    refine ⟨(p, platformResult env (uploadMetaOf video series) p),
      List.mem_filter.mpr ⟨hmemres, ?_⟩, rfl⟩
    rw [hpr]
    rfl
  · intro hsucc
    have hne := (orch_success_iff env video series platforms).mp hsucc
    obtain ⟨q, hq⟩ := List.exists_mem_of_ne_nil _ hne
    refine ⟨q, hq, ?_⟩
    intro hqp
    exact hnotsucc (hqp ▸ hq)

/-- C10 witness: "facebook" has an active connection but is not a known
platform; TikTok succeeds alongside it. -/
theorem unknown_platform_safe_witness :
    envBase.connection "facebook" = some { accessTokenExpiresAt := none } ∧
    "facebook" ∈ ["tiktok", "facebook"] ∧
    videoFileOk envBase readyVideo = true ∧
    "facebook" ∈ (upload_to_platforms envBase readyVideo defaultSeries
        ["tiktok", "facebook"]).1.platformsFailed :=
  ⟨rfl, by decide, by decide,
   (unknown_platform_safe envBase readyVideo defaultSeries
     ["tiktok", "facebook"] "facebook" { accessTokenExpiresAt := none }
     rfl (by decide) (by decide) (by decide) (by decide) (by decide)).2.1⟩

end BigMotion
